import Mathlib

/-!
# Learning Stability Engine — shallow embedding

This file embeds the core of the repository's "Learning Stability Engine":

* the SQL function `calculate_pattern_stability` (weekly aggregation,
  variance-based stability score, drift detection),
* the trigger function `update_learning_insights_with_stability`
  (per-event upsert of `learning_insights`),
* the view `validated_learning_insights_with_stability` (validation status),
* the TypeScript `LearningService` (`calculateEditPercentage`,
  `calculateSuccessScore`, `storeEditAnalysis`, `analyzeEdit`).

Modelling conventions: SQL `DECIMAL` arithmetic is modelled with exact
rationals (`ℚ`) and `SQRT` with `Real.sqrt` (decimal-precision rounding of
intermediates is abstracted away); timestamps are integer day numbers with
day 0 falling on a Monday, so `DATE_TRUNC('week', t)` becomes
`t - t.emod 7` and `INTERVAL '8 weeks'` becomes 56 days.  Database rows are
lists of records; fallible external calls are explicit `Except` parameters.
-/

namespace CaptainAI

/-- One row of the `edit_analyses` table, restricted to the columns read by
`calculate_pattern_stability` (`edit_type`, `user_id`, `created_at`,
`success_score`). `createdAt` is a day number; `successScore` the 0–100
outcome score. -/
structure EditAnalysisRow where
  editType : String
  userId : Option String
  createdAt : ℤ
  successScore : ℚ
deriving DecidableEq

/-- Embeds `DATE_TRUNC('week', t)` at day granularity: truncate day number
`t` to the start of its week (day 0 is a Monday). -/
def weekStart (t : ℤ) : ℤ := t - t.emod 7

/-- The `WHERE` clause of the weekly-aggregation query in
`calculate_pattern_stability`: the row's `edit_type` equals the pattern
value, the optional user filter matches (`user_id_param IS NULL OR
ea.user_id = user_id_param`), and `created_at >= CURRENT_DATE - INTERVAL
'8 weeks'`. -/
def qualifyingEvents (rows : List EditAnalysisRow) (pv : String)
    (uid : Option String) (now : ℤ) : List EditAnalysisRow :=
  rows.filter fun e =>
    e.editType == pv && (uid == none || e.userId == uid)
      && decide (now - 56 ≤ e.createdAt)

/-- The weekly aggregation loop of `calculate_pattern_stability`:
`GROUP BY DATE_TRUNC('week', created_at) HAVING COUNT(*) >= 2
ORDER BY week_start`, averaging `success_score` per week. -/
def weeklyAverages (rows : List EditAnalysisRow) (pv : String)
    (uid : Option String) (now : ℤ) : List (ℤ × ℚ) :=
  let evs := qualifyingEvents rows pv uid now
  let weeks := ((evs.map fun e => weekStart e.createdAt).dedup).insertionSort (· ≤ ·)
  ((weeks.map fun w => (w, evs.filter fun e => weekStart e.createdAt == w)).filter
      fun p => 2 ≤ p.2.length).map
    fun p => (p.1, (p.2.map EditAnalysisRow.successScore).sum / (p.2.length : ℚ))

/-- Embeds `SELECT AVG(rate) FROM unnest(success_rates)`: mean of the
weekly success rates. -/
def meanRate (rates : List ℚ) : ℚ := rates.sum / (rates.length : ℚ)

/-- Embeds `SELECT AVG(POWER(rate - mean_rate, 2)) FROM
unnest(success_rates)`: population variance of the weekly success rates. -/
def varianceCalc (rates : List ℚ) : ℚ :=
  ((rates.map fun r => (r - meanRate rates) ^ 2).sum) / (rates.length : ℚ)

/-- Embeds `AVG(success_rates[rate_count-1 : rate_count])`: mean of the
last two weekly rates (PostgreSQL array slices are 1-indexed and
inclusive). -/
def recentTrend (rates : List ℚ) : ℚ :=
  ((rates.drop (rates.length - 2)).sum) / ((rates.drop (rates.length - 2)).length : ℚ)

/-- Embeds `AVG(success_rates[1 : rate_count-2])`: mean of all weekly rates
before the last two. -/
def historicalTrend (rates : List ℚ) : ℚ :=
  ((rates.take (rates.length - 2)).sum) / ((rates.take (rates.length - 2)).length : ℚ)

/-- The drift-detection block of `calculate_pattern_stability`: only when
`rate_count >= 4`, set `drift_detected := ABS(recent_trend -
historical_trend) > 20`; otherwise the `DEFAULT FALSE` stands. -/
def driftCalc (rates : List ℚ) : Bool :=
  if 4 ≤ rates.length then decide (20 < |recentTrend rates - historicalTrend rates|)
  else false

/-- Embeds `stability_calc := GREATEST(0, LEAST(1, 1 -
SQRT(variance)/mean))` when `mean_rate > 0`, else `0`. -/
noncomputable def stabilityCalc (rates : List ℚ) : ℝ :=
  if 0 < meanRate rates then
    max 0 (min 1 (1 - Real.sqrt ((varianceCalc rates : ℚ) : ℝ) / ((meanRate rates : ℚ) : ℝ)))
  else 0

/-- The record returned by `calculate_pattern_stability` (minus the echoed
`weekly_rates` array): stability score, variance, `is_stable =
stability_calc >= 0.7`, and the drift flag. -/
structure StabilityResult where
  stabilityScore : ℝ
  patternVariance : ℚ
  isStable : Prop
  driftDetected : Bool

/-- The function `calculate_pattern_stability` applied to an
already-aggregated series of weekly averages: with fewer than 3 qualifying
weeks it returns the neutral default `(0.500, 0.000, FALSE, FALSE)`;
otherwise the computed stability score, variance, `is_stable` flag and
drift flag. -/
noncomputable def analyzeStability (rates : List ℚ) : StabilityResult :=
  if rates.length < 3 then ⟨0.5, 0, False, false⟩
  else ⟨stabilityCalc rates, varianceCalc rates, stabilityCalc rates ≥ 0.7, driftCalc rates⟩

/-- The threshold gate of `update_learning_insights_with_stability`:
`sample_size >= 5 AND confidence >= 65 AND time_span_days >= 3`, applied in
the `DO UPDATE SET` clause to the freshly updated values. -/
def thresholdMet (sampleSize confidence timeSpanDays : ℤ) : Bool :=
  decide (5 ≤ sampleSize) && decide (65 ≤ confidence) && decide (3 ≤ timeSpanDays)

/-- One row of `learning_insights`, restricted to the columns written by the
trigger function `update_learning_insights_with_stability` (the stability
columns are filled in by a separate `UPDATE` from
`calculate_pattern_stability` and are modelled by `StabilityResult`). -/
structure LearningInsight where
  frequency : ℤ
  successRate : ℚ
  recommendation : String
  confidence : ℤ
  sampleSize : ℤ
  timeSpanDays : ℤ
  firstOccurrence : ℤ
  thresholdMet : Bool
deriving DecidableEq

/-- The `CASE` expression choosing the `recommendation` text in the trigger's
`INSERT` branch. -/
def recommendationFor (score : ℚ) : String :=
  if 75 ≤ score then "Current approach working well"
  else if 50 ≤ score then "Minor adjustments needed"
  else "Significant improvements required"

/-- The `INSERT` branch of the trigger's upsert: first event for a pattern.
`VALUES (..., 1, NEW.success_score, CASE ..., 50, 1, 1, CURRENT_TIMESTAMP,
FALSE)`. -/
def insertInsight (score : ℚ) (now : ℤ) : LearningInsight :=
  ⟨1, score, recommendationFor score, 50, 1, 1, now, false⟩

/-- The `ON CONFLICT ... DO UPDATE SET` branch of the trigger's upsert; all
right-hand sides read the pre-update row `i`. `now - i.firstOccurrence`
models `EXTRACT(DAY FROM (CURRENT_TIMESTAMP - first_occurrence))` with
timestamps at day granularity. -/
def updateInsight (i : LearningInsight) (score : ℚ) (now : ℤ) : LearningInsight :=
  let newConfidence := min 90 (i.confidence + 2)
  let newSampleSize := i.frequency + 1
  let newTimeSpan := max 1 (now - i.firstOccurrence)
  { frequency := max (i.frequency + 1) 1
    successRate :=
      if 0 < i.frequency then
        (i.successRate * (i.frequency : ℚ) + score) / ((i.frequency : ℚ) + 1)
      else score
    recommendation := i.recommendation
    confidence := newConfidence
    sampleSize := newSampleSize
    timeSpanDays := newTimeSpan
    firstOccurrence := i.firstOccurrence
    thresholdMet := thresholdMet newSampleSize newConfidence newTimeSpan }

/-- One upsert step of the trigger: insert on a missing row, update on an
existing one. -/
def applyRow (cur : Option LearningInsight) (score : ℚ) (now : ℤ) : LearningInsight :=
  match cur with
  | none => insertInsight score now
  | some i => updateInsight i score now

/-- Folding the trigger's upsert over a list of recorded edit events
(`(success_score, arrival day)` pairs), starting from no row. -/
def runUpsert (evs : List (ℚ × ℤ)) : Option LearningInsight :=
  evs.foldl (fun cur ev => some (applyRow cur ev.1 ev.2)) none

/-- The eight validation statuses of the view
`validated_learning_insights_with_stability`. -/
inductive ValidationStatus where
  | fullyValidated
  | thresholdMetButUnstable
  | patternDriftDetected
  | stableButInsufficientData
  | insufficientConfidence
  | insufficientTimeSpan
  | insufficientSamples
  | pendingValidation
deriving DecidableEq

/-- The `learning_insights` columns consumed by the view's `CASE`
expression. -/
structure InsightRow where
  thresholdMet : Bool
  stabilityValidated : Bool
  patternDriftDetected : Bool
  sampleSize : ℤ
  confidence : ℤ
  timeSpanDays : ℤ
deriving DecidableEq

/-- The `CASE` expression of `validated_learning_insights_with_stability`
(`fix-phase2-schema-proper.js`), first match wins.  Its
`INSUFFICIENT_TIME_SPAN` arm tests only `sample_size >= 5 AND
time_span_days < 3`. -/
def validationStatus (r : InsightRow) : ValidationStatus :=
  if r.thresholdMet && r.stabilityValidated && !r.patternDriftDetected then
    .fullyValidated
  else if r.thresholdMet && !r.stabilityValidated then .thresholdMetButUnstable
  else if r.thresholdMet && r.patternDriftDetected then .patternDriftDetected
  else if r.stabilityValidated && !r.thresholdMet then .stableButInsufficientData
  else if 5 ≤ r.sampleSize ∧ r.confidence < 65 then .insufficientConfidence
  else if 5 ≤ r.sampleSize ∧ r.timeSpanDays < 3 then .insufficientTimeSpan
  else if r.sampleSize < 5 then .insufficientSamples
  else .pendingValidation

/-- Modelled from the spec: the same eight conditions in the spec's listed
order, whose `INSUFFICIENT_TIME_SPAN` arm additionally requires
`confidence >= 65`; used to compare the view's `CASE` against the spec's
wording. -/
def specValidationStatus (r : InsightRow) : ValidationStatus :=
  if r.thresholdMet && r.stabilityValidated && !r.patternDriftDetected then
    .fullyValidated
  else if r.thresholdMet && !r.stabilityValidated then .thresholdMetButUnstable
  else if r.thresholdMet && r.patternDriftDetected then .patternDriftDetected
  else if r.stabilityValidated && !r.thresholdMet then .stableButInsufficientData
  else if 5 ≤ r.sampleSize ∧ r.confidence < 65 then .insufficientConfidence
  else if 5 ≤ r.sampleSize ∧ 65 ≤ r.confidence ∧ r.timeSpanDays < 3 then
    .insufficientTimeSpan
  else if r.sampleSize < 5 then .insufficientSamples
  else .pendingValidation

mutual

/-- Embeds `String.split(/\s+/)` semantics, word-building state: accumulate
the current word (reversed) until a whitespace character ends it. -/
def jsSplitWsGo : List Char → List Char → List String
  | [], cur => [String.mk cur.reverse]
  | c :: rest, cur =>
    if c.isWhitespace then String.mk cur.reverse :: jsSplitWsSkip rest
    else jsSplitWsGo rest (c :: cur)

/-- Embeds `String.split(/\s+/)` semantics, separator state: a maximal
whitespace run is one separator; a run reaching the end of the string
leaves a trailing empty piece, exactly as the JavaScript regex split
does. -/
def jsSplitWsSkip : List Char → List String
  | [] => [""]
  | c :: rest =>
    if c.isWhitespace then jsSplitWsSkip rest
    else jsSplitWsGo rest [c]

end

/-- Embeds `original.split(/\s+/)`: split a string on maximal whitespace
runs, keeping the empty leading/trailing pieces JavaScript produces. -/
def jsSplitWs (s : String) : List String := jsSplitWsGo s.data []

/-- Embeds `edited.trim() === ''` (also covering the falsy `!edited` test):
every character is whitespace. -/
def isBlank (s : String) : Bool := s.data.all (·.isWhitespace)

/-- Embeds `LearningService.calculateEditPercentage`: 0 for identical
texts, 100 for a blank edited text, otherwise the word-level diff ratio —
absolute word-count difference plus positionwise word mismatches, divided
by the longer word sequence's length, as a rounded percentage capped at
100. `Math.round` on a nonnegative quotient is `⌊x + 1/2⌋`, here
`(200 * changes + maxLength) / (2 * maxLength)` in integer division. -/
def calculateEditPercentage (original edited : String) : ℕ :=
  if original = edited then 0
  else if isBlank edited then 100
  else
    let originalWords := jsSplitWs original
    let editedWords := jsSplitWs edited
    let changes := Int.natAbs ((originalWords.length : ℤ) - (editedWords.length : ℤ))
        + (originalWords.zip editedWords).countP fun p => p.1 != p.2
    let maxLength := max originalWords.length editedWords.length
    min ((200 * changes + maxLength) / (2 * maxLength)) 100

/-- Embeds `LearningService.calculateSuccessScore`: the step bands
0 → 100, ≤20 → 75, ≤70 → 25, otherwise 0. -/
def calculateSuccessScore (editPercentage : ℕ) : ℕ :=
  if editPercentage = 0 then 100
  else if editPercentage ≤ 20 then 75
  else if editPercentage ≤ 70 then 25
  else 0

/-- The AI analysis fields consumed by `analyzeEdit`
(`editType`, `description`, `insight`). -/
structure AIEditAnalysis where
  editType : String
  description : String
  insight : String
deriving DecidableEq

/-- The record built and returned by `LearningService.analyzeEdit`. -/
structure EditAnalysis where
  responseId : String
  originalText : String
  editedText : String
  editType : String
  editPercentage : ℕ
  editDescription : String
  successScore : ℕ
  learningInsight : String
deriving DecidableEq

/-- Embeds `LearningService.getAIEditAnalysis`: the OpenAI call's outcome
is an explicit `Except` parameter; its `catch` block swallows any failure
and substitutes the fixed fallback analysis. -/
def getAIEditAnalysis (aiResult : Except String AIEditAnalysis) : AIEditAnalysis :=
  match aiResult with
  | .ok a => a
  | .error _ => ⟨"mixed", "Unable to analyze edit", "Analysis failed"⟩

/-- Embeds `LearningService.storeEditAnalysis`: the database `INSERT`'s
outcome is an explicit `Except` parameter; its `catch` block logs the error
and returns normally, so the function never propagates a storage
failure. -/
def storeEditAnalysis (writeResult : Except String Unit) : Except String Unit :=
  match writeResult with
  | .ok u => .ok u
  | .error _ => .ok ()

/-- Embeds `LearningService.analyzeEdit`: compute the edit percentage and
success score, take the (failure-swallowing) AI categorization, store via
`storeEditAnalysis`, and return the analysis; its own `catch` rethrows any
error that escapes the inner calls. -/
def analyzeEdit (responseId originalText editedText : String)
    (aiResult : Except String AIEditAnalysis)
    (writeResult : Except String Unit) : Except String EditAnalysis :=
  let editPercentage := calculateEditPercentage originalText editedText
  let aiAnalysis := getAIEditAnalysis aiResult
  let successScore := calculateSuccessScore editPercentage
  let analysis : EditAnalysis :=
    ⟨responseId, originalText, editedText, aiAnalysis.editType, editPercentage,
      aiAnalysis.description, successScore, aiAnalysis.insight⟩
  match storeEditAnalysis writeResult with
  | .ok _ => .ok analysis
  | .error e => .error e

/-- C6: with fewer than 3 qualifying weeks (including the empty series),
`analyzeStability` returns exactly the neutral default: stabilityScore 0.5,
variance 0, not stable, no drift. -/
theorem insufficient_weeks_default (rates : List ℚ) (h : rates.length < 3) :
    (analyzeStability rates).stabilityScore = 0.5
      ∧ (analyzeStability rates).patternVariance = 0
      ∧ ¬ (analyzeStability rates).isStable
      ∧ (analyzeStability rates).driftDetected = false := by
  simp [analyzeStability, if_pos h]

/-- Witness for C6 at the spec's own example `[85, 90]` (2 weeks). -/
theorem insufficient_weeks_default_witness :
    ([85, 90] : List ℚ).length < 3
      ∧ ((analyzeStability [85, 90]).stabilityScore = 0.5
        ∧ (analyzeStability [85, 90]).patternVariance = 0
        ∧ ¬ (analyzeStability [85, 90]).isStable
        ∧ (analyzeStability [85, 90]).driftDetected = false) :=
  ⟨by norm_num, insufficient_weeks_default [85, 90] (by norm_num)⟩

/-- C2: with at least 3 qualifying weeks, the stability score is
`clamp(0, 1, 1 - sqrt(population variance) / mean)` when the mean of the
series is positive, `0` when the mean is `0`, and `isStable` holds exactly
when the stability score is at least 0.7.  The last two conjuncts identify
`varianceCalc`/`meanRate` with the population-variance and mean formulas of
the series. -/
theorem stability_score_formula (rates : List ℚ) (h3 : 3 ≤ rates.length) :
    (0 < meanRate rates →
      (analyzeStability rates).stabilityScore
        = max 0 (min 1 (1 - Real.sqrt ((varianceCalc rates : ℚ) : ℝ)
            / ((meanRate rates : ℚ) : ℝ))))
      ∧ (meanRate rates = 0 → (analyzeStability rates).stabilityScore = 0)
      ∧ ((analyzeStability rates).isStable ↔
          (analyzeStability rates).stabilityScore ≥ 0.7)
      ∧ varianceCalc rates
          = ((rates.map fun r => (r - rates.sum / (rates.length : ℚ)) ^ 2).sum)
              / (rates.length : ℚ)
      ∧ meanRate rates = rates.sum / (rates.length : ℚ) := by
  have hnot : ¬ rates.length < 3 := by omega
  refine ⟨fun hpos => ?_, fun hzero => ?_, ?_, ?_, ?_⟩
  · simp only [analyzeStability, if_neg hnot, stabilityCalc, if_pos hpos]
  · simp only [analyzeStability, if_neg hnot, stabilityCalc]
    rw [if_neg (by simp [hzero])]
  · simp only [analyzeStability, if_neg hnot]
  · simp [varianceCalc, meanRate]
  · rfl

/-- Witness for C2 at the 4-week series `[80, 80, 100, 100]`
(mean 90, population variance 100). -/
theorem stability_score_formula_witness :
    3 ≤ ([80, 80, 100, 100] : List ℚ).length
      ∧ ((0 < meanRate [80, 80, 100, 100] →
          (analyzeStability [80, 80, 100, 100]).stabilityScore
            = max 0 (min 1 (1 - Real.sqrt ((varianceCalc [80, 80, 100, 100] : ℚ) : ℝ)
                / ((meanRate [80, 80, 100, 100] : ℚ) : ℝ))))
        ∧ (meanRate [80, 80, 100, 100] = 0 →
            (analyzeStability [80, 80, 100, 100]).stabilityScore = 0)
        ∧ ((analyzeStability [80, 80, 100, 100]).isStable ↔
            (analyzeStability [80, 80, 100, 100]).stabilityScore ≥ 0.7)
        ∧ varianceCalc [80, 80, 100, 100]
            = ((([80, 80, 100, 100] : List ℚ).map
                  fun r => (r - ([80, 80, 100, 100] : List ℚ).sum
                    / (([80, 80, 100, 100] : List ℚ).length : ℚ)) ^ 2).sum)
                / (([80, 80, 100, 100] : List ℚ).length : ℚ)
        ∧ meanRate [80, 80, 100, 100]
            = ([80, 80, 100, 100] : List ℚ).sum
                / (([80, 80, 100, 100] : List ℚ).length : ℚ)) :=
  ⟨by norm_num, stability_score_formula [80, 80, 100, 100] (by norm_num)⟩

/-- C1 (amended): drift is flagged exactly when the mean of the most recent
TWO weeks' averages differs from the mean of all earlier qualifying weeks
by more than 20 score points, and only when at least 4 qualifying weeks
exist; with fewer than 4 qualifying weeks `driftDetected` is always
false. -/
theorem drift_uses_recent_two_weeks (rates : List ℚ) :
    (rates.length < 4 → (analyzeStability rates).driftDetected = false)
      ∧ (4 ≤ rates.length →
          ((analyzeStability rates).driftDetected = true ↔
            20 < |recentTrend rates - historicalTrend rates|)
          ∧ recentTrend rates = (rates.drop (rates.length - 2)).sum / 2
          ∧ historicalTrend rates
              = (rates.take (rates.length - 2)).sum / ((rates.length : ℚ) - 2)) := by
  constructor
  · intro h4
    by_cases h3 : rates.length < 3
    · simp [analyzeStability, if_pos h3]
    · simp only [analyzeStability, if_neg h3, driftCalc]
      rw [if_neg (by omega)]
  · intro h4
    have h3 : ¬ rates.length < 3 := by omega
    refine ⟨?_, ?_, ?_⟩
    · simp only [analyzeStability, if_neg h3, driftCalc, if_pos h4,
        decide_eq_true_eq]
    · have hlen : (rates.drop (rates.length - 2)).length = 2 := by
        rw [List.length_drop]; omega
      rw [recentTrend, hlen]; norm_num
    · have hlen : (rates.take (rates.length - 2)).length = rates.length - 2 := by
        rw [List.length_take]; omega
      rw [historicalTrend, hlen]
      congr 1
      push_cast [Nat.cast_sub (by omega : 2 ≤ rates.length)]
      ring

/-- Witness for C1's amended rule at `[10, 10, 10, 90]` (recent two weeks
average 50, historical average 10, gap 40 > 20). -/
theorem drift_uses_recent_two_weeks_witness :
    (([10, 10, 10, 90] : List ℚ).length < 4 →
        (analyzeStability [10, 10, 10, 90]).driftDetected = false)
      ∧ (4 ≤ ([10, 10, 10, 90] : List ℚ).length →
          ((analyzeStability [10, 10, 10, 90]).driftDetected = true ↔
            20 < |recentTrend [10, 10, 10, 90] - historicalTrend [10, 10, 10, 90]|)
          ∧ recentTrend [10, 10, 10, 90]
              = (([10, 10, 10, 90] : List ℚ).drop
                  (([10, 10, 10, 90] : List ℚ).length - 2)).sum / 2
          ∧ historicalTrend [10, 10, 10, 90]
              = (([10, 10, 10, 90] : List ℚ).take
                  (([10, 10, 10, 90] : List ℚ).length - 2)).sum
                  / ((([10, 10, 10, 90] : List ℚ).length : ℚ) - 2)) :=
  drift_uses_recent_two_weeks [10, 10, 10, 90]

/-- C1 counterexample: on `[50, 50, 50, 80]` the claimed rule (compare the
single most recent week, 80, with the mean of all prior weeks, 50; gap
30 > 20) demands drift, but the code compares the mean of the last TWO
weeks (65) with the earlier weeks (50), a gap of only 15, and reports no
drift. -/
theorem drift_last_week_rule_cex :
    (analyzeStability [50, 50, 50, 80]).driftDetected = false
      ∧ 20 < |(80 : ℚ) - (50 + 50 + 50) / 3| := by
  constructor
  · have h3 : ¬ ([50, 50, 50, 80] : List ℚ).length < 3 := by norm_num
    simp only [analyzeStability, if_neg h3, driftCalc]
    rw [if_pos (by norm_num)]
    simp only [decide_eq_false_iff_not, not_lt]
    simp [recentTrend, historicalTrend]
    norm_num
  · norm_num

/-- C3: the threshold gate holds iff sampleSize ≥ 5 and confidence ≥ 65 and
timeSpanDays ≥ 3; the spec's four boundary points evaluate as stated; and
the trigger's update branch stores exactly this gate applied to the updated
sampleSize/confidence/timeSpanDays fields. -/
theorem threshold_gate_iff :
    (∀ s c t : ℤ, thresholdMet s c t = true ↔ (5 ≤ s ∧ 65 ≤ c ∧ 3 ≤ t))
      ∧ thresholdMet 5 65 3 = true
      ∧ thresholdMet 4 65 3 = false
      ∧ thresholdMet 5 64 3 = false
      ∧ thresholdMet 5 65 2 = false
      ∧ (∀ (i : LearningInsight) (score : ℚ) (now : ℤ),
          (updateInsight i score now).thresholdMet
            = thresholdMet (updateInsight i score now).sampleSize
                (updateInsight i score now).confidence
                (updateInsight i score now).timeSpanDays) := by
  refine ⟨fun s c t => ?_, by decide, by decide, by decide, by decide,
    fun i score now => rfl⟩
  simp [thresholdMet, and_assoc]

/-- Every insight produced by the upsert path has confidence at most 90:
the insert branch stores 50 and the update branch stores
`LEAST(90, confidence + 2)`. -/
theorem runUpsert_confidence_le_90 (evs : List (ℚ × ℤ)) (i : LearningInsight)
    (h : runUpsert evs = some i) : i.confidence ≤ 90 := by
  induction evs using List.reverseRecOn with
  | nil => simp [runUpsert] at h
  | append_singleton evs ev ih =>
    rw [runUpsert, List.foldl_append, List.foldl_cons, List.foldl_nil] at h
    cases hcur : evs.foldl (fun cur ev => some (applyRow cur ev.1 ev.2)) none with
    | none =>
      rw [hcur] at h
      cases h
      simp [applyRow, insertInsight]
    | some j =>
      rw [hcur] at h
      cases h
      simp only [applyRow, updateInsight]
      omega

/-- C5: on the update path with positive prior frequency `n`, the new
successRate is the running weighted average `(oldRate * n + score) / (n + 1)`
and the new confidence is `min 90 (old + 2)`; given the stored-confidence
invariant (`runUpsert_confidence_le_90`), confidence never decreases on
this path and never exceeds 90. -/
theorem apply_event_success_rate_confidence (i : LearningInsight) (score : ℚ)
    (now : ℤ) (hfreq : 0 < i.frequency) (hconf : i.confidence ≤ 90) :
    (updateInsight i score now).successRate
        = (i.successRate * (i.frequency : ℚ) + score) / ((i.frequency : ℚ) + 1)
      ∧ (updateInsight i score now).confidence = min 90 (i.confidence + 2)
      ∧ i.confidence ≤ (updateInsight i score now).confidence
      ∧ (updateInsight i score now).confidence ≤ 90 := by
  refine ⟨?_, rfl, ?_, ?_⟩
  · simp [updateInsight, if_pos hfreq]
  · simp only [updateInsight]; omega
  · simp only [updateInsight]; omega

/-- Witness for C5 at a concrete stored insight (frequency 4,
successRate 80, confidence 58). -/
theorem apply_event_success_rate_confidence_witness :
    (0 < (⟨4, 80, "Current approach working well", 58, 4, 2, 0, false⟩
          : LearningInsight).frequency
        ∧ (⟨4, 80, "Current approach working well", 58, 4, 2, 0, false⟩
            : LearningInsight).confidence ≤ 90)
      ∧ ((updateInsight ⟨4, 80, "Current approach working well", 58, 4, 2, 0, false⟩
            90 3).successRate = (80 * (4 : ℚ) + 90) / ((4 : ℚ) + 1)
        ∧ (updateInsight ⟨4, 80, "Current approach working well", 58, 4, 2, 0, false⟩
            90 3).confidence = min 90 (58 + 2)
        ∧ (58 : ℤ) ≤ (updateInsight
            ⟨4, 80, "Current approach working well", 58, 4, 2, 0, false⟩ 90 3).confidence
        ∧ (updateInsight ⟨4, 80, "Current approach working well", 58, 4, 2, 0, false⟩
            90 3).confidence ≤ 90) :=
  ⟨⟨by norm_num, by norm_num⟩,
    apply_event_success_rate_confidence
      ⟨4, 80, "Current approach working well", 58, 4, 2, 0, false⟩ 90 3
      (by norm_num) (by norm_num)⟩

/-- Auxiliary step count for C10: folding updates over an existing row with
positive frequency adds one to frequency per event and keeps
`sampleSize = frequency`. -/
theorem runUpsert_aux (evs : List (ℚ × ℤ)) :
    ∀ (i : LearningInsight), 1 ≤ i.frequency → i.sampleSize = i.frequency →
      ∀ j, evs.foldl (fun cur ev => some (applyRow cur ev.1 ev.2)) (some i) = some j →
        j.sampleSize = j.frequency ∧ j.frequency = i.frequency + evs.length := by
  induction evs with
  | nil =>
    intro i h1 hs j hj
    simp only [List.foldl_nil, Option.some.injEq] at hj
    subst hj
    simpa using hs
  | cons ev rest ih =>
    intro i h1 hs j hj
    rw [List.foldl_cons] at hj
    have hstep : (applyRow (some i) ev.1 ev.2).frequency = i.frequency + 1 := by
      simp only [applyRow, updateInsight]; omega
    have hstep2 : (applyRow (some i) ev.1 ev.2).sampleSize = i.frequency + 1 := by
      simp only [applyRow, updateInsight]
    obtain ⟨hj1, hj2⟩ := ih (applyRow (some i) ev.1 ev.2)
      (by omega) (by rw [hstep, hstep2]) j hj
    refine ⟨hj1, ?_⟩
    rw [hj2, hstep, List.length_cons]
    push_cast
    ring

/-- C10: the insert branch sets frequency and sampleSize both to 1; the
update branch (on any row with nonnegative frequency) sets both to
`oldFrequency + 1`; and consequently, after any nonempty sequence of
recorded events, the stored row satisfies `sampleSize = frequency = number
of events recorded`. -/
theorem sample_size_eq_frequency :
    (∀ (score : ℚ) (now : ℤ),
        (insertInsight score now).frequency = 1
          ∧ (insertInsight score now).sampleSize = 1)
      ∧ (∀ (i : LearningInsight) (score : ℚ) (now : ℤ), 0 ≤ i.frequency →
          (updateInsight i score now).frequency = i.frequency + 1
            ∧ (updateInsight i score now).sampleSize = i.frequency + 1)
      ∧ (∀ (evs : List (ℚ × ℤ)) (i : LearningInsight), runUpsert evs = some i →
          i.sampleSize = i.frequency ∧ i.frequency = (evs.length : ℤ)) := by
  refine ⟨fun score now => ⟨rfl, rfl⟩, fun i score now h0 => ⟨?_, rfl⟩, ?_⟩
  · simp only [updateInsight]; omega
  · intro evs i h
    match evs with
    | [] => simp [runUpsert] at h
    | ev :: rest =>
      rw [runUpsert, List.foldl_cons] at h
      have hins : applyRow none ev.1 ev.2 = insertInsight ev.1 ev.2 := rfl
      rw [hins] at h
      obtain ⟨h1, h2⟩ := runUpsert_aux rest (insertInsight ev.1 ev.2)
        (by simp [insertInsight]) (by simp [insertInsight]) i h
      refine ⟨h1, ?_⟩
      rw [h2, List.length_cons]
      simp [insertInsight]
      ring

/-- Witness for C10: two concrete events yield a stored row with
`sampleSize = frequency = 2`. -/
theorem sample_size_eq_frequency_witness :
    runUpsert [(80, 0), (90, 1)]
        = some ⟨2, 85, "Current approach working well", 52, 2, 1, 0, false⟩
      ∧ ((2 : ℤ) = 2 ∧ (2 : ℤ) = (([(80, 0), (90, 1)] : List (ℚ × ℤ)).length : ℤ)) := by
  have h : runUpsert [((80 : ℚ), (0 : ℤ)), (90, 1)]
      = some ⟨2, 85, "Current approach working well", 52, 2, 1, 0, false⟩ := by
    norm_num [runUpsert, applyRow, insertInsight, updateInsight,
      recommendationFor, thresholdMet]
  refine ⟨h, ?_, ?_⟩
  · exact ((sample_size_eq_frequency.2.2 [(80, 0), (90, 1)] _ h).1 :)
  · exact ((sample_size_eq_frequency.2.2 [(80, 0), (90, 1)] _ h).2 :)

/-- C4 (amended): the view's `CASE` agrees everywhere with the spec's
first-match-wins condition list; a threshold-met, stability-validated,
drift-free row is `FULLY_VALIDATED`; a threshold-met, stability-validated,
drifting row is `PATTERN_DRIFT_DETECTED`; and a threshold-met drifting row
is never `FULLY_VALIDATED` (a threshold-met, NOT-stability-validated,
drifting row is reported as `THRESHOLD_MET_BUT_UNSTABLE` instead, because
that arm precedes the drift arm). -/
theorem validation_status_precedence :
    (∀ r : InsightRow, validationStatus r = specValidationStatus r)
      ∧ (∀ r : InsightRow, r.thresholdMet = true → r.stabilityValidated = true →
          r.patternDriftDetected = false → validationStatus r = .fullyValidated)
      ∧ (∀ r : InsightRow, r.thresholdMet = true → r.stabilityValidated = true →
          r.patternDriftDetected = true → validationStatus r = .patternDriftDetected)
      ∧ (∀ r : InsightRow, r.thresholdMet = true → r.patternDriftDetected = true →
          validationStatus r ≠ .fullyValidated)
      ∧ (∀ r : InsightRow, r.thresholdMet = true → r.stabilityValidated = false →
          r.patternDriftDetected = true →
          validationStatus r = .thresholdMetButUnstable) := by
  refine ⟨fun r => ?_, fun r h1 h2 h3 => ?_, fun r h1 h2 h3 => ?_,
    fun r h1 h3 => ?_, fun r h1 h2 h3 => ?_⟩
  · unfold validationStatus specValidationStatus
    split_ifs <;> first | rfl | omega
  · simp [validationStatus, h1, h2, h3]
  · simp [validationStatus, h1, h2, h3]
  · simp [validationStatus, h1, h3]
    split_ifs <;> simp_all
  · simp [validationStatus, h1, h2, h3]

/-- Witness for C4's amended statement at two concrete rows. -/
theorem validation_status_precedence_witness :
    validationStatus ⟨true, true, false, 9, 80, 10⟩ = .fullyValidated
      ∧ validationStatus ⟨true, true, true, 9, 80, 10⟩ = .patternDriftDetected
      ∧ validationStatus ⟨true, false, true, 9, 80, 10⟩ = .thresholdMetButUnstable :=
  ⟨validation_status_precedence.2.1 ⟨true, true, false, 9, 80, 10⟩ rfl rfl rfl,
    validation_status_precedence.2.2.1 ⟨true, true, true, 9, 80, 10⟩ rfl rfl rfl,
    validation_status_precedence.2.2.2.2 ⟨true, false, true, 9, 80, 10⟩ rfl rfl rfl⟩

/-- C4 counterexample: the row that is threshold-met and drift-detected but
not stability-validated is classified `THRESHOLD_MET_BUT_UNSTABLE`, not
`PATTERN_DRIFT_DETECTED` as the claim demands (the unstable arm precedes
the drift arm in the view's `CASE`). -/
theorem validation_status_drift_cex :
    (⟨true, false, true, 9, 80, 10⟩ : InsightRow).thresholdMet = true
      ∧ (⟨true, false, true, 9, 80, 10⟩ : InsightRow).patternDriftDetected = true
      ∧ validationStatus ⟨true, false, true, 9, 80, 10⟩
          = .thresholdMetButUnstable
      ∧ validationStatus ⟨true, false, true, 9, 80, 10⟩
          ≠ .patternDriftDetected := by
  refine ⟨rfl, rfl, ?_, ?_⟩ <;> decide

/-- C9: the outcome score is a deterministic function of the two texts:
identical texts score 100 (this branch is checked first, so it wins even
for two blank texts); otherwise a blank edited text scores 0; and the score
always follows the step bands of the edit percentage. -/
theorem outcome_score_bands (original edited : String) :
    (original = edited →
        calculateSuccessScore (calculateEditPercentage original edited) = 100)
      ∧ (original ≠ edited → isBlank edited = true →
          calculateSuccessScore (calculateEditPercentage original edited) = 0)
      ∧ (calculateEditPercentage original edited = 0 →
          calculateSuccessScore (calculateEditPercentage original edited) = 100)
      ∧ (0 < calculateEditPercentage original edited →
          calculateEditPercentage original edited ≤ 20 →
          calculateSuccessScore (calculateEditPercentage original edited) = 75)
      ∧ (20 < calculateEditPercentage original edited →
          calculateEditPercentage original edited ≤ 70 →
          calculateSuccessScore (calculateEditPercentage original edited) = 25)
      ∧ (70 < calculateEditPercentage original edited →
          calculateSuccessScore (calculateEditPercentage original edited) = 0) := by
  refine ⟨fun he => ?_, fun hne hb => ?_, fun h0 => ?_, fun h1 h2 => ?_,
    fun h1 h2 => ?_, fun h1 => ?_⟩
  · rw [calculateEditPercentage, if_pos he]; rfl
  · rw [calculateEditPercentage, if_neg hne, if_pos hb]; rfl
  · rw [calculateSuccessScore, if_pos h0]
  · rw [calculateSuccessScore, if_neg (by omega), if_pos h2]
  · rw [calculateSuccessScore, if_neg (by omega), if_neg (by omega), if_pos h2]
  · rw [calculateSuccessScore, if_neg (by omega), if_neg (by omega),
      if_neg (by omega)]

/-- Witness for C9: identical texts score 100; a blank edited text scores
0; a one-word-in-two change scores 25 (50% edited). -/
theorem outcome_score_bands_witness :
    calculateSuccessScore (calculateEditPercentage "hello world" "hello world") = 100
      ∧ calculateSuccessScore (calculateEditPercentage "hello world" "  ") = 0
      ∧ (20 < calculateEditPercentage "hello world" "hello there"
          ∧ calculateEditPercentage "hello world" "hello there" ≤ 70
          ∧ calculateSuccessScore (calculateEditPercentage "hello world" "hello there")
              = 25) :=
  ⟨(outcome_score_bands "hello world" "hello world").1 rfl,
    (outcome_score_bands "hello world" "  ").2.1 (by decide) (by decide),
    by decide, by decide,
    (outcome_score_bands "hello world" "hello there").2.2.2.2.1
      (by decide) (by decide)⟩

/-- C7 (amended): a storage-write failure is caught and logged inside
`storeEditAnalysis` and is NOT surfaced to `analyzeEdit`'s caller: the
result is identical to the success case and is always `ok`, even when the
append of the edit event did not happen; there is no retry (the write is
attempted exactly once by construction). -/
theorem storage_failure_not_surfaced (responseId originalText editedText : String)
    (aiResult : Except String AIEditAnalysis) (writeResult : Except String Unit) :
    (∀ msg : String, storeEditAnalysis (.error msg) = .ok ())
      ∧ analyzeEdit responseId originalText editedText aiResult writeResult
          = analyzeEdit responseId originalText editedText aiResult (.ok ())
      ∧ ∃ a : EditAnalysis,
          analyzeEdit responseId originalText editedText aiResult writeResult
            = .ok a := by
  refine ⟨fun msg => rfl, ?_, ?_⟩ <;> cases writeResult <;>
    simp [analyzeEdit, storeEditAnalysis]

/-- C7 counterexample: with the storage write failing (`connection
refused`), `analyzeEdit` still reports success and returns the analysis —
the failure is neither surfaced nor distinguishable from success, contrary
to the claim. -/
theorem storage_failure_surfaced_cex :
    analyzeEdit "r1" "hello world" "hello there" (.ok ⟨"tone", "d", "i"⟩)
        (.error "connection refused")
      = .ok ⟨"r1", "hello world", "hello there", "tone", 50, "d", 25, "i"⟩ := by
  rfl

/-- Membership in `qualifyingEvents` unpacked: the event came from the
store and its timestamp is at least `now - 56`. -/
theorem mem_qualifyingEvents {rows : List EditAnalysisRow} {pv : String}
    {uid : Option String} {now : ℤ} {e : EditAnalysisRow}
    (h : e ∈ qualifyingEvents rows pv uid now) :
    e ∈ rows ∧ now - 56 ≤ e.createdAt := by
  rw [qualifyingEvents, List.mem_filter] at h
  obtain ⟨hmem, hcond⟩ := h
  simp only [Bool.and_eq_true, decide_eq_true_eq] at hcond
  exact ⟨hmem, hcond.2⟩

/-- C8: when every stored event's timestamp is at most `now` (true of every
reachable store, since rows are stamped at insertion time),
`weeklyAverages` returns buckets ordered ascending by week start, each
backed by at least 2 qualifying events all within `[now - 56, now]` and
carrying exactly their average score; and with no qualifying events it
returns the empty list (not an error).  It is a pure function of its
arguments, so it is deterministic and has no side effects on stored
data. -/
theorem weekly_averages_window_sorted (rows : List EditAnalysisRow) (pv : String)
    (uid : Option String) (now : ℤ)
    (hpast : ∀ e ∈ rows, e.createdAt ≤ now) :
    ((weeklyAverages rows pv uid now).map Prod.fst).Sorted (· ≤ ·)
      ∧ (∀ p ∈ weeklyAverages rows pv uid now,
          2 ≤ ((qualifyingEvents rows pv uid now).filter
                fun e => weekStart e.createdAt == p.1).length
          ∧ (∀ e ∈ (qualifyingEvents rows pv uid now).filter
                fun e => weekStart e.createdAt == p.1,
              now - 56 ≤ e.createdAt ∧ e.createdAt ≤ now)
          ∧ p.2 = (((qualifyingEvents rows pv uid now).filter
                  fun e => weekStart e.createdAt == p.1).map
                  EditAnalysisRow.successScore).sum
              / ((((qualifyingEvents rows pv uid now).filter
                  fun e => weekStart e.createdAt == p.1).length : ℕ) : ℚ))
      ∧ (qualifyingEvents rows pv uid now = [] →
          weeklyAverages rows pv uid now = []) := by
  refine ⟨?_, ?_, ?_⟩
  · simp only [weeklyAverages]
    have hsorted :
        ((((qualifyingEvents rows pv uid now).map
            fun e => weekStart e.createdAt).dedup).insertionSort (· ≤ ·)).Sorted
          (· ≤ ·) := List.sorted_insertionSort _ _
    rw [List.Sorted, List.pairwise_map, List.pairwise_map]
    refine List.Pairwise.sublist (List.filter_sublist _) ?_
    rw [List.pairwise_map]
    exact hsorted
  · intro p hp
    simp only [weeklyAverages, List.mem_map, List.mem_filter] at hp
    obtain ⟨q, ⟨hq_mem, hq_len⟩, hfq⟩ := hp
    obtain ⟨w, _, hgw⟩ := hq_mem
    subst hgw
    subst hfq
    simp only [decide_eq_true_eq] at hq_len
    refine ⟨hq_len, fun e he => ?_, rfl⟩
    have he' := he
    rw [List.mem_filter] at he'
    obtain ⟨hq, _⟩ := he'
    obtain ⟨hrow, hwin⟩ := mem_qualifyingEvents hq
    exact ⟨hwin, hpast e hrow⟩
  · intro h
    simp [weeklyAverages, h]

/-- Witness for C8 at a concrete store: two events for pattern `"tone"` in
the current week, one stale event outside the 8-week window, one event for
another pattern. -/
theorem weekly_averages_window_sorted_witness :
    (∀ e ∈ [(⟨"tone", none, 98, 80⟩ : EditAnalysisRow), ⟨"tone", none, 99, 90⟩,
        ⟨"tone", none, 10, 40⟩, ⟨"content", none, 98, 70⟩], e.createdAt ≤ 100)
      ∧ (((weeklyAverages [⟨"tone", none, 98, 80⟩, ⟨"tone", none, 99, 90⟩,
            ⟨"tone", none, 10, 40⟩, ⟨"content", none, 98, 70⟩] "tone" none 100).map
            Prod.fst).Sorted (· ≤ ·)
        ∧ (∀ p ∈ weeklyAverages [⟨"tone", none, 98, 80⟩, ⟨"tone", none, 99, 90⟩,
              ⟨"tone", none, 10, 40⟩, ⟨"content", none, 98, 70⟩] "tone" none 100,
            2 ≤ ((qualifyingEvents [⟨"tone", none, 98, 80⟩, ⟨"tone", none, 99, 90⟩,
                  ⟨"tone", none, 10, 40⟩, ⟨"content", none, 98, 70⟩] "tone" none
                  100).filter fun e => weekStart e.createdAt == p.1).length
            ∧ (∀ e ∈ (qualifyingEvents [⟨"tone", none, 98, 80⟩,
                  ⟨"tone", none, 99, 90⟩, ⟨"tone", none, 10, 40⟩,
                  ⟨"content", none, 98, 70⟩] "tone" none 100).filter
                  fun e => weekStart e.createdAt == p.1,
                (100 : ℤ) - 56 ≤ e.createdAt ∧ e.createdAt ≤ 100)
            ∧ p.2 = (((qualifyingEvents [⟨"tone", none, 98, 80⟩,
                    ⟨"tone", none, 99, 90⟩, ⟨"tone", none, 10, 40⟩,
                    ⟨"content", none, 98, 70⟩] "tone" none 100).filter
                    fun e => weekStart e.createdAt == p.1).map
                    EditAnalysisRow.successScore).sum
                / ((((qualifyingEvents [⟨"tone", none, 98, 80⟩,
                    ⟨"tone", none, 99, 90⟩, ⟨"tone", none, 10, 40⟩,
                    ⟨"content", none, 98, 70⟩] "tone" none 100).filter
                    fun e => weekStart e.createdAt == p.1).length : ℕ) : ℚ))
        ∧ (qualifyingEvents [⟨"tone", none, 98, 80⟩, ⟨"tone", none, 99, 90⟩,
              ⟨"tone", none, 10, 40⟩, ⟨"content", none, 98, 70⟩] "tone" none 100 = [] →
            weeklyAverages [⟨"tone", none, 98, 80⟩, ⟨"tone", none, 99, 90⟩,
              ⟨"tone", none, 10, 40⟩, ⟨"content", none, 98, 70⟩] "tone" none 100
              = [])) :=
  ⟨by decide,
    weekly_averages_window_sorted
      [⟨"tone", none, 98, 80⟩, ⟨"tone", none, 99, 90⟩, ⟨"tone", none, 10, 40⟩,
        ⟨"content", none, 98, 70⟩] "tone" none 100 (by decide)⟩

end CaptainAI
